import Mathlib

/-!
Verification of the selection-state controller in
`src/core/src/components/select.ts` (`useSet`, `useSelect` and friends).

The items and projected values handled by the controller are dynamically
typed JavaScript values.  We model them with `JSVal`: the primitives the
claims exercise plus plain objects whose fields hold primitives (the code
only ever reads one field of an item at a time, via `item[itemValue]` /
`item[itemText]`).  Object identity (JavaScript reference equality, used by
`Array.prototype.indexOf`, `Set` and `Map` membership) is modelled by an
explicit object id `oid`: two object literals are `===`-equal exactly when
they are the same allocation, so distinct allocations get distinct ids.
-/

/-- Primitive JavaScript values (we omit floats: the claims only use small
integers, strings and booleans). -/
inductive Prim where
  | pNull
  | pUndefined
  | pBool (b : Bool)
  | pNum (n : Int)
  | pStr (s : String)
deriving DecidableEq, Repr

/-- JavaScript values as seen by the controller: primitives and plain
objects with primitive-valued fields. -/
inductive JSVal where
  | prim (p : Prim)
  | vObj (oid : Nat) (fields : List (String × Prim))
deriving DecidableEq, Repr

namespace JSVal

def vNull : JSVal := .prim .pNull
def vUndefined : JSVal := .prim .pUndefined
def vBool (b : Bool) : JSVal := .prim (.pBool b)
def vNum (n : Int) : JSVal := .prim (.pNum n)
def vStr (s : String) : JSVal := .prim (.pStr s)

end JSVal

/-- JavaScript truthiness (`!!v`): `null`, `undefined`, `false`, `0` and the
empty string are falsy; every object is truthy. -/
def jsTruthy : JSVal → Bool
  | .prim .pNull => false
  | .prim .pUndefined => false
  | .prim (.pBool b) => b
  | .prim (.pNum n) => decide (n ≠ 0)
  | .prim (.pStr s) => decide (s ≠ "")
  | .vObj _ _ => true

/-- Errors a controller operation can surface: the `TypeError` thrown by a
property access on `null`/`undefined`, and the configuration error of an
invalid construction (spec section 7). -/
inductive JsErr where
  | typeError
  | configError
deriving DecidableEq, Repr

/-- Property access `v[name]`: throws a `TypeError` on `null`/`undefined`,
yields the field (or `undefined` for a missing field) on an object, and
`undefined` on other primitives. -/
def jsGetField (v : JSVal) (name : String) : Except JsErr JSVal :=
  match v with
  | .prim .pNull => .error .typeError
  | .prim .pUndefined => .error .typeError
  | .vObj _ fields =>
      match fields.lookup name with
      | some p => .ok (.prim p)
      | none => .ok .vUndefined
  | .prim _ => .ok .vUndefined

/-- String coercion used by `Array.prototype.join`. -/
def jsToString : JSVal → String
  | .prim .pNull => "null"
  | .prim .pUndefined => "undefined"
  | .prim (.pBool b) => if b then "true" else "false"
  | .prim (.pNum n) => toString n
  | .prim (.pStr s) => s
  | .vObj _ _ => "[object Object]"

/-- The external model-value shape `V[] | V`: a scalar or an array.
`selected` holds one of these, and `setValues` accepts either. -/
inductive ModelValue where
  | scalar (v : JSVal)
  | arr (l : List JSVal)
deriving DecidableEq, Repr

/-- Truthiness of a model value (`!!selected.value`): arrays are objects and
hence truthy, even when empty. -/
def ModelValue.truthy : ModelValue → Bool
  | .scalar v => jsTruthy v
  | .arr _ => true

/-- The `itemText` / `itemValue` options: either a field name or a
function (`string | ((item: T) => V)`). -/
inductive Proj where
  | pfield (name : String)
  | pfun (f : JSVal → JSVal)

/-- State owned by `useSet`: the JavaScript `Set` (insertion-ordered,
duplicate-free by construction) and the `updated` change counter. -/
structure SetState where
  values : List JSVal
  updated : Nat
deriving DecidableEq, Repr

/-- Fresh `useSet` state: `new Set()` and `ref(0)`. -/
def SetState.init : SetState := ⟨[], 0⟩

namespace UseSet

/-- `add`: returns without effect when `items.indexOf(item) == -1`;
otherwise `values.add(item)` (a no-op insert when already present, keeping
insertion order) followed unconditionally by `forceUpdate()`. -/
def add (items : List JSVal) (item : JSVal) (s : SetState) : SetState :=
  if item ∈ items then
    { values := if item ∈ s.values then s.values else s.values ++ [item]
      updated := s.updated + 1 }
  else s

/-- `has`: `values.has(item)`. -/
def has (s : SetState) (item : JSVal) : Bool :=
  item ∈ s.values

/-- `remove`: `values.delete(item)` returns whether the item was present;
`forceUpdate()` runs only in that case. -/
def remove (item : JSVal) (s : SetState) : SetState :=
  if item ∈ s.values then
    { values := s.values.erase item, updated := s.updated + 1 }
  else s

/-- `clear`: `values.clear()` then `forceUpdate()`, unconditionally. -/
def clear (s : SetState) : SetState :=
  { values := [], updated := s.updated + 1 }

/-- `toggle`: `remove` when present, else `add`. -/
def toggle (items : List JSVal) (item : JSVal) (s : SetState) : SetState :=
  if has s item then remove item s else add items item s

/-- `equals(items)`: false when `items.length != values.size`, else true
iff every element of `items` is in the set. -/
def equals (s : SetState) (l : List JSVal) : Bool :=
  if l.length = s.values.length then
    l.all (fun x => decide (x ∈ s.values))
  else false

end UseSet

/-- The options record taken by `useSelect` (defaults as in `selectProps`). -/
structure SelectOptions where
  items : List JSVal
  multiple : Bool := false
  itemText : Proj := .pfield "text"
  itemValue : Proj := .pfield "value"
  cols : Int := 1

namespace UseSelect

/-- `getValue(item)`: apply `itemValue` when it is a function, otherwise
read the field `item[itemValue]` (which throws on `undefined`). -/
def getValue (opts : SelectOptions) (item : JSVal) : Except JsErr JSVal :=
  match opts.itemValue with
  | .pfun f => .ok (f item)
  | .pfield name => jsGetField item name

/-- `getText(item)`: apply `itemText` when it is a function, otherwise read
the field `item[itemText]`. -/
def getText (opts : SelectOptions) (item : JSVal) : Except JsErr JSVal :=
  match opts.itemText with
  | .pfun f => .ok (f item)
  | .pfield name => jsGetField item name

/-- Lookup in `itemMap = new Map(items.map((i) => [getValue(i), i]))`: the
`Map` constructor lets later entries overwrite earlier ones, so the last
candidate projecting to `v` wins.  An item whose projection throws is
skipped here; `init` fails on such configurations, so states carrying them
are unreachable. -/
def itemMap (opts : SelectOptions) (v : JSVal) : Option JSVal :=
  opts.items.foldl
    (fun acc i =>
      match getValue opts i with
      | .ok w => if w = v then some i else acc
      | .error _ => acc)
    none

/-- `select(item)` at the set level: `toggle` in multiple mode, otherwise
`clear()` followed by `add(item)`. -/
def select (opts : SelectOptions) (item : JSVal) (s : SetState) : SetState :=
  if opts.multiple then UseSet.toggle opts.items item s
  else UseSet.add opts.items item (UseSet.clear s)

/-- `setItems(items)` at the set level: return unchanged when
`s.equals(items)`, else `s.clear()` then `select` each item in order. -/
def setItems (opts : SelectOptions) (newItems : List JSVal) (s : SetState) : SetState :=
  if UseSet.equals s newItems then s
  else newItems.foldl (fun st i => select opts i st) (UseSet.clear s)

/-- Normalization `Array.isArray(values) ? values : [values]`. -/
def toArray : ModelValue → List JSVal
  | .arr l => l
  | .scalar v => [v]

/-- Resolution step of `setValues`:
`values.map((v) => itemMap.get(v)).filter((item) => !!item)` — a missing
`Map` entry yields `undefined`, which the truthiness filter drops, and a
present but falsy item is dropped by the very same test. -/
def resolveValues (opts : SelectOptions) (vals : List JSVal) : List JSVal :=
  vals.filterMap (fun v =>
    match itemMap opts v with
    | some i => if jsTruthy i then some i else none
    | none => none)

/-- `setValues(values)` at the set level: normalize, resolve through the
value index, then `setItems`. -/
def setValues (opts : SelectOptions) (mv : ModelValue) (s : SetState) : SetState :=
  setItems opts (resolveValues opts (toArray mv)) s

/-- Body of `watch(s.updated, ...)`: recompute `selected` (scalar
`getValue(items[0])` in single mode — `items[0]` is `undefined` on an empty
set — or `items.map(getValue)` in multiple mode) and `selectedStr`. -/
def recompute (opts : SelectOptions) (vals : List JSVal) :
    Except JsErr (ModelValue × String) := do
  let sel ←
    if opts.multiple then do
      let vs ← vals.mapM (getValue opts)
      pure (ModelValue.arr vs)
    else do
      let v ← getValue opts (vals.headD JSVal.vUndefined)
      pure (ModelValue.scalar v)
  let ts ← vals.mapM (getText opts)
  pure (sel, String.intercalate "," (ts.map jsToString))

/-- Controller state: the set state plus the derived refs `selected` and
`selectedStr` maintained by the watcher. -/
structure SelState where
  sset : SetState
  selected : ModelValue
  selectedStr : String
deriving DecidableEq, Repr

/-- Flush the watcher after an operation: Vue batches the synchronous
counter bumps of one call into a single callback run, so the derived refs
are recomputed once, from the final set state, iff the counter moved. -/
def flush (opts : SelectOptions) (old : SelState) (s2 : SetState) :
    Except JsErr SelState :=
  if s2.updated = old.sset.updated then .ok { old with sset := s2 }
  else do
    let r ← recompute opts s2.values
    .ok ⟨s2, r.1, r.2⟩

/-- `isEmpty` exactly as computed:
`multiple ? !Array.isArray(selected.value) || selected.value.length == 0
          : !!selected.value`. -/
def isEmpty (opts : SelectOptions) (sel : ModelValue) : Bool :=
  if opts.multiple then
    match sel with
    | .arr l => l.length == 0
    | .scalar _ => true
  else sel.truthy

/-- Mode-aware `has(item)`: `null` queries answer false, otherwise the
item's value is compared with the `selected` shape. -/
def hasSel (opts : SelectOptions) (sel : ModelValue) (item : JSVal) :
    Except JsErr Bool :=
  if item = JSVal.vNull then .ok false
  else do
    let v ← getValue opts item
    match sel with
    | .arr l => .ok (decide (v ∈ l))
    | .scalar s => .ok (decide (s = v))

/-- Chunks of size `n + 1`, preserving order. -/
def chunkList (n : Nat) : List JSVal → List (List JSVal)
  | [] => []
  | x :: xs => (x :: xs.take n) :: chunkList n (xs.drop n)
termination_by l => l.length
decreasing_by
  simp only [List.length_drop, List.length_cons]
  omega

/-- Modelled from the spec: the repository's `splitArray` helper is imported
from outside `src/`, so its code is not available here.  Spec section 3
(Display Rows) partitions the candidate list into fixed-size chunks of size
equal to the configured column count, in original order; spec section 7
declares a column count ≤ 0 an invalid configuration that fails fast at
construction with a configuration error. -/
def splitArray (arr : List JSVal) (cols : Int) : Except JsErr (List (List JSVal)) :=
  if cols ≤ 0 then .error .configError
  else .ok (chunkList (cols.toNat - 1) arr)

/-- Construction of the controller: `useSelect` eagerly builds `itemMap`
(projecting every candidate, which can throw) and `itemRows` (via
`splitArray`), and starts with an empty set, `selected` initialized to
`[]`/`null` by mode, and an empty display string (the watcher is not run
at construction). -/
def init (opts : SelectOptions) : Except JsErr SelState := do
  let _ ← opts.items.mapM (getValue opts)
  let _ ← splitArray opts.items opts.cols
  .ok { sset := SetState.init
        selected := if opts.multiple then .arr [] else .scalar JSVal.vNull
        selectedStr := "" }

/-- The public operations a caller can invoke on one controller. -/
inductive Op where
  | add (item : JSVal)
  | remove (item : JSVal)
  | toggle (item : JSVal)
  | clear
  | select (item : JSVal)
  | setItems (l : List JSVal)
  | setValues (mv : ModelValue)

/-- Effect of one operation on the set state. -/
def setStep (opts : SelectOptions) : Op → SetState → SetState
  | .add i => UseSet.add opts.items i
  | .remove i => UseSet.remove i
  | .toggle i => UseSet.toggle opts.items i
  | .clear => UseSet.clear
  | .select i => select opts i
  | .setItems l => setItems opts l
  | .setValues mv => setValues opts mv

/-- One public call: mutate the set, then flush the watcher once. -/
def exec (opts : SelectOptions) (op : Op) (st : SelState) : Except JsErr SelState :=
  flush opts st (setStep opts op st.sset)

/-- Run a sequence of calls from a given state. -/
def runFrom (opts : SelectOptions) (st : SelState) : List Op → Except JsErr SelState
  | [] => .ok st
  | op :: rest => do runFrom opts (← exec opts op st) rest

/-- Run a sequence of calls on a freshly constructed controller. -/
def run (opts : SelectOptions) (ops : List Op) : Except JsErr SelState := do
  runFrom opts (← init opts) ops

end UseSelect

/-! ## Concrete fixtures used by counterexamples and witnesses -/

/-- Candidate object with projected value 1 and text "a". -/
def itemA : JSVal := .vObj 1 [("value", .pNum 1), ("text", .pStr "a")]

/-- Candidate object with projected value 2 and text "b". -/
def itemB : JSVal := .vObj 2 [("value", .pNum 2), ("text", .pStr "b")]

/-- A distinct allocation projecting to the same value 1 as `itemA`. -/
def itemDupB : JSVal := .vObj 3 [("value", .pNum 1), ("text", .pStr "b")]

/-- Single-mode controller over `[itemA, itemB]` with default projections. -/
def optsSingleAB : SelectOptions := { items := [itemA, itemB] }

/-- Multiple-mode controller over `[itemA, itemB]` with default projections. -/
def optsMultiAB : SelectOptions := { items := [itemA, itemB], multiple := true }

/-- Multiple-mode controller whose two candidates project to the same value. -/
def optsDup : SelectOptions := { items := [itemA, itemDupB], multiple := true }

/-- Multiple-mode controller whose sole candidate is the falsy item `0`,
under an identity value projection. -/
def optsZero : SelectOptions :=
  { items := [JSVal.vNum 0], multiple := true, itemValue := .pfun id }

/-- A controller configured with zero columns. -/
def optsColsZero : SelectOptions := { items := [itemA], cols := 0 }

/-- Plain-number candidate list (numbers are their own identity). -/
def numItems : List JSVal := [JSVal.vNum 1, JSVal.vNum 2]

/-- Single-mode controller over the number candidates. -/
def optsSingleNum : SelectOptions := { items := numItems }

/-- Multiple-mode controller over the number candidates. -/
def optsMultiNum : SelectOptions := { items := numItems, multiple := true }

/-- Tracker state with both numbers selected, reached by two adds. -/
def sNums : SetState :=
  UseSet.add numItems (JSVal.vNum 2) (UseSet.add numItems (JSVal.vNum 1) SetState.init)

/-- Tracker state with only the number 1 selected. -/
def sOneNum : SetState := UseSet.add numItems (JSVal.vNum 1) SetState.init

/-- Tracker state of `optsMultiAB` with `itemA` selected. -/
def sSelA : SetState := UseSet.add optsMultiAB.items itemA SetState.init

/-- Controller state of `optsMultiAB` after `select(itemA)`: set `{itemA}`,
counter 1, selected values `[1]`, display string `"a"`. -/
def stSelA : UseSelect.SelState :=
  ⟨⟨[itemA], 1⟩, ModelValue.arr [JSVal.vNum 1], "a"⟩

/-! ## Helper lemmas (shared across claims) -/

lemma UseSet.add_updated_le (items : List JSVal) (item : JSVal) (s : SetState) :
    (UseSet.add items item s).updated ≤ s.updated + 1 := by
  unfold UseSet.add; split <;> simp

lemma UseSet.toggle_updated_le (items : List JSVal) (item : JSVal) (s : SetState) :
    (UseSet.toggle items item s).updated ≤ s.updated + 1 := by
  unfold UseSet.toggle UseSet.remove; split
  · split <;> simp
  · exact UseSet.add_updated_le items item s

lemma UseSelect.select_updated_le (opts : SelectOptions) (item : JSVal) (s : SetState) :
    (UseSelect.select opts item s).updated ≤ s.updated + 2 := by
  unfold UseSelect.select; split
  · exact le_trans (UseSet.toggle_updated_le opts.items item s) (by omega)
  · have h := UseSet.add_updated_le opts.items item (UseSet.clear s)
    simp only [UseSet.clear] at h ⊢
    omega

lemma UseSelect.foldl_select_updated_le (opts : SelectOptions) (l : List JSVal) (s : SetState) :
    (l.foldl (fun st i => UseSelect.select opts i st) s).updated ≤ s.updated + 2 * l.length := by
  induction l generalizing s with
  | nil => simp
  | cons a t ih =>
      simp only [List.foldl_cons, List.length_cons]
      have h1 := ih (UseSelect.select opts a s)
      have h2 := UseSelect.select_updated_le opts a s
      omega

lemma UseSelect.setItems_updated_le (opts : SelectOptions) (l : List JSVal) (s : SetState) :
    (UseSelect.setItems opts l s).updated ≤ s.updated + 1 + 2 * l.length := by
  unfold UseSelect.setItems; split
  · omega
  · have h := UseSelect.foldl_select_updated_le opts l (UseSet.clear s)
    simp only [UseSet.clear] at h ⊢
    omega

/-! ## Claims -/

/-- C1: the claim says `isEmpty` is true iff the active selected-values
shape has zero elements (in single mode: the scalar selected value is
absent/null).  The code computes `!!selected.value` in single mode — the
truthiness of the selected value, which is the opposite: at the initial
single-mode state (nothing selected, `selected = null`) `isEmpty` is
`false`, and after selecting `itemA` (selection of size 1, selected value
`1`, truthy) `isEmpty` is `true`.  This theorem evaluates the code at both
failing inputs. -/
theorem C1_isEmpty_inverted :
    (UseSelect.init optsSingleAB).toOption.map
        (fun st => (st.sset.values, UseSelect.isEmpty optsSingleAB st.selected)) =
      some ([], false) ∧
    (UseSelect.run optsSingleAB [UseSelect.Op.select itemA]).toOption.map
        (fun st => (st.sset.values, UseSelect.isEmpty optsSingleAB st.selected)) =
      some ([itemA], true) := by
  constructor <;> decide

/-- C2 counterexample: `clear` bumps the Change Counter even when the
Selection Set was already empty, so two consecutive `clear` calls on the
fresh (empty) tracker produce two bumps where the claim allows at most one
(and, starting from an empty set, zero); moreover `add` of an
already-selected candidate bumps again without mutating the set. -/
theorem C2_counterexample :
    (UseSet.clear (UseSet.clear SetState.init)).updated = 2 ∧
    (UseSet.add numItems (JSVal.vNum 1) sOneNum).updated = 2 ∧
    (UseSet.add numItems (JSVal.vNum 1) sOneNum).values = sOneNum.values := by
  refine ⟨by decide, by decide, by decide⟩

/-- C2 amended: the Change Counter is incremented per call as follows —
`add` bumps exactly once iff the item is in the Candidate List, even when
the item is already selected (in which case the set is not mutated);
`remove` bumps exactly once iff it deleted a present item; `clear` always
bumps exactly once, even when the set was already empty (so two consecutive
`clear` calls produce two bumps); `toggle` bumps exactly once iff the item
is selected or is a candidate. -/
theorem C2_amended (items : List JSVal) (s : SetState) (item : JSVal) :
    (UseSet.add items item s).updated = s.updated + (if item ∈ items then 1 else 0) ∧
    (UseSet.add items item s).values =
      (if item ∈ items ∧ item ∉ s.values then s.values ++ [item] else s.values) ∧
    (UseSet.remove item s).updated = s.updated + (if item ∈ s.values then 1 else 0) ∧
    (UseSet.clear s).updated = s.updated + 1 ∧
    (UseSet.toggle items item s).updated =
      s.updated + (if item ∈ s.values ∨ item ∈ items then 1 else 0) := by
  refine ⟨?_, ?_, ?_, ?_, ?_⟩ <;>
    simp only [UseSet.add, UseSet.remove, UseSet.clear, UseSet.toggle, UseSet.has] <;>
    split_ifs <;> simp_all

/-- C4 counterexample: a single call to `select` in single mode on a fresh
controller with candidate `itemA` increments the Change Counter from 0 to
2 (one bump from `clear`, one from `add`), not at most once as the claim
states. -/
theorem C4_counterexample :
    (UseSelect.select optsSingleAB itemA SetState.init).updated = 2 := by decide

/-- C4 amended: within one call the Change Counter increments at most once
for `toggle`, at most twice for `select` (the single-mode clear-then-add
path really does bump twice, so counter observers see two increments per
single-mode `select`), and at most `1 + 2·n` times for `setItems` /
`setValues` on `n` items; derived-view recomputation (the watcher) is
batched and runs once per call, after the mutation completes, as modelled
by `UseSelect.exec`. -/
theorem C4_amended (opts : SelectOptions) (s : SetState) (item : JSVal)
    (l : List JSVal) (mv : ModelValue) :
    (UseSet.toggle opts.items item s).updated ≤ s.updated + 1 ∧
    (UseSelect.select opts item s).updated ≤ s.updated + 2 ∧
    (UseSelect.setItems opts l s).updated ≤ s.updated + 1 + 2 * l.length ∧
    (UseSelect.setValues opts mv s).updated ≤
      s.updated + 1 + 2 * (UseSelect.toArray mv).length := by
  refine ⟨UseSet.toggle_updated_le opts.items item s,
          UseSelect.select_updated_le opts item s,
          UseSelect.setItems_updated_le opts l s, ?_⟩
  have h1 := UseSelect.setItems_updated_le opts
    (UseSelect.resolveValues opts (UseSelect.toArray mv)) s
  have h2 : (UseSelect.resolveValues opts (UseSelect.toArray mv)).length ≤
      (UseSelect.toArray mv).length := List.length_filterMap_le _ _
  unfold UseSelect.setValues
  omega

/-- C5: the claim says every operation and the derived-view recomputation
it triggers is total, explicitly including `clear()` in single mode leaving
the Selection Set empty.  In the code, the watcher then computes
`getValue(items[0])` with `items = []`, i.e. `undefined['value']` under the
default field-name projection, which throws a `TypeError`.  Construction
succeeds, yet the very first `clear()` call on the fresh single-mode
controller fails. -/
theorem C5_clear_throws :
    (UseSelect.run optsSingleAB []).toOption.isSome = true ∧
    (UseSelect.run optsSingleAB [UseSelect.Op.clear]).toOption = none := by
  constructor <;> decide

/-- C3 counterexample: in single mode, `select` of an item that is not in
the Candidate List is not silently ignored — it still runs `clear()`before
the guarded `add`, so from a state with the number 1 selected, selecting
the non-candidate 99 empties the Selection Set and bumps the Change
Counter. -/
theorem C3_counterexample :
    JSVal.vNum 99 ∉ optsSingleNum.items ∧
    (UseSelect.select optsSingleNum (JSVal.vNum 99) sOneNum).values = [] ∧
    (UseSelect.select optsSingleNum (JSVal.vNum 99) sOneNum).updated =
      sOneNum.updated + 1 := by
  refine ⟨by decide, by decide, by decide⟩

/-- C3 amended: for an item not in the Candidate List (and any state whose
Selection Set is contained in the Candidate List, as every reachable state
is), `add`, `remove` and `toggle` leave the tracker completely unchanged
(no mutation, no counter bump), and `select` does too in multiple mode; in
single mode, however, `select` still clears the Selection Set and bumps
the counter. -/
theorem C3_amended (opts : SelectOptions) (s : SetState) (item : JSVal)
    (hsub : ∀ x ∈ s.values, x ∈ opts.items) (hni : item ∉ opts.items) :
    UseSet.add opts.items item s = s ∧
    UseSet.remove item s = s ∧
    UseSet.toggle opts.items item s = s ∧
    (opts.multiple = true → UseSelect.select opts item s = s) := by
  have hnv : item ∉ s.values := fun h => hni (hsub item h)
  have h1 : UseSet.add opts.items item s = s := by
    unfold UseSet.add; rw [if_neg hni]
  have h2 : UseSet.remove item s = s := by
    unfold UseSet.remove; rw [if_neg hnv]
  have hhas : UseSet.has s item = false := by simp [UseSet.has, hnv]
  have h3 : UseSet.toggle opts.items item s = s := by
    simp [UseSet.toggle, hhas, h1]
  exact ⟨h1, h2, h3, fun hm => by simp [UseSelect.select, hm, h3]⟩

/-- C3 witness: instantiation at the multiple-mode number controller, the
state with 1 selected and the non-candidate 99. -/
theorem C3_witness :
    UseSet.add optsMultiNum.items (JSVal.vNum 99) sOneNum = sOneNum ∧
    UseSet.remove (JSVal.vNum 99) sOneNum = sOneNum ∧
    UseSet.toggle optsMultiNum.items (JSVal.vNum 99) sOneNum = sOneNum ∧
    (optsMultiNum.multiple = true →
      UseSelect.select optsMultiNum (JSVal.vNum 99) sOneNum = sOneNum) :=
  C3_amended optsMultiNum sOneNum (JSVal.vNum 99) (by decide) (by decide)

/-- C6 counterexample: with both numbers 1 and 2 selected, `equals [1, 1]`
returns true although the set of elements of `[1, 1]` is `{1}`, not the
Selection Set `{1, 2}` (the length test counts duplicates, the membership
loop does not detect them); conversely, with only 1 selected,
`equals [1, 1]` returns false although the two collections are equal as
sets. -/
theorem C6_counterexample :
    UseSet.equals sNums [JSVal.vNum 1, JSVal.vNum 1] = true ∧
    JSVal.vNum 2 ∈ sNums.values ∧
    JSVal.vNum 2 ∉ [JSVal.vNum 1, JSVal.vNum 1] ∧
    UseSet.equals sOneNum [JSVal.vNum 1, JSVal.vNum 1] = false ∧
    ([JSVal.vNum 1, JSVal.vNum 1].all (· ∈ sOneNum.values)) = true ∧
    (sOneNum.values.all (· ∈ [JSVal.vNum 1, JSVal.vNum 1])) = true := by
  refine ⟨by decide, by decide, by decide, by decide, by decide, by decide⟩

/-- C6 amended: for duplicate-free query lists (and the Selection Set is
duplicate-free by construction), `equals(items)` returns true iff the
elements of `items` are exactly the Selection Set; for lists with
duplicates the code compares the duplicated length against the set size
and only then memberships, so it can disagree with set equality in both
directions. -/
theorem C6_amended (s : SetState) (l : List JSVal)
    (hs : s.values.Nodup) (hl : l.Nodup) :
    UseSet.equals s l = true ↔ ∀ x : JSVal, x ∈ l ↔ x ∈ s.values := by
  unfold UseSet.equals
  constructor
  · intro h
    split at h
    case isTrue hlen =>
      have hsub : l ⊆ s.values := by
        intro x hx
        simpa using List.all_eq_true.1 h x hx
      have hperm : l.Perm s.values :=
        (hl.subperm hsub).perm_of_length_le (le_of_eq hlen.symm)
      exact fun x => hperm.mem_iff
    case isFalse => simp at h
  · intro h
    have hperm : l.Perm s.values := (List.perm_ext_iff_of_nodup hl hs).2 h
    rw [if_pos hperm.length_eq]
    simp only [List.all_eq_true, decide_eq_true_eq]
    exact fun x hx => (h x).1 hx

/-- C6 witness: instantiation at the state with 1 selected and the
duplicate-free query `[1]`. -/
theorem C6_witness :
    UseSet.equals sOneNum [JSVal.vNum 1] = true ↔
      ∀ x : JSVal, x ∈ [JSVal.vNum 1] ↔ x ∈ sOneNum.values :=
  C6_amended sOneNum [JSVal.vNum 1] (by decide) (by decide)

/-- C8: with a column count ≤ 0, constructing the controller fails with a
configuration error instead of completing normally (`splitArray` is
modelled from the spec, see its doc comment). -/
theorem C8_cols_nonpositive (opts : SelectOptions) (h : opts.cols ≤ 0) :
    (UseSelect.init opts).toOption = none := by
  unfold UseSelect.init UseSelect.splitArray
  cases hm : opts.items.mapM (UseSelect.getValue opts) with
  | error e => simp [hm, Except.toOption, Bind.bind, Except.bind]
  | ok l => simp [hm, if_pos h, Except.toOption, Bind.bind, Except.bind]

/-- C8 witness: the concrete controller configured with zero columns. -/
theorem C8_witness :
    optsColsZero.cols ≤ 0 ∧ (UseSelect.init optsColsZero).toOption = none :=
  ⟨by decide, C8_cols_nonpositive optsColsZero (by decide)⟩

/-- C10: `setValues` keeps a resolved item only when the looked-up item is
truthy, not merely present in the Value Index: a value whose index entry is
itself a falsy item (e.g. the item `0` under an identity projection) is
dropped exactly like a value with no index entry at all, even though it has
a matching candidate. -/
theorem C10_falsy_resolution (opts : SelectOptions) (v : JSVal) (vs : List JSVal)
    (item : JSVal) (hfind : UseSelect.itemMap opts v = some item)
    (hfalsy : jsTruthy item = false) :
    UseSelect.resolveValues opts (v :: vs) = UseSelect.resolveValues opts vs ∧
    (∀ s : SetState, UseSelect.setValues opts (ModelValue.arr (v :: vs)) s =
      UseSelect.setValues opts (ModelValue.arr vs) s) ∧
    (∀ w : JSVal, ∀ vs2 : List JSVal, UseSelect.itemMap opts w = none →
      UseSelect.resolveValues opts (w :: vs2) = UseSelect.resolveValues opts vs2) := by
  have h1 : UseSelect.resolveValues opts (v :: vs) = UseSelect.resolveValues opts vs := by
    unfold UseSelect.resolveValues
    simp [List.filterMap_cons, hfind, hfalsy]
  refine ⟨h1, fun s => ?_, fun w vs2 hw => ?_⟩
  · simp only [UseSelect.setValues, UseSelect.toArray]
    rw [h1]
  · unfold UseSelect.resolveValues
    simp [List.filterMap_cons, hw]

/-- C10 witness: the multiple-mode controller whose sole candidate is the
falsy item `0` under an identity value projection — the value `0` is in the
Value Index, yet `setValues([0])` resolves to nothing. -/
theorem C10_witness :
    UseSelect.itemMap optsZero (JSVal.vNum 0) = some (JSVal.vNum 0) ∧
    jsTruthy (JSVal.vNum 0) = false ∧
    UseSelect.resolveValues optsZero [JSVal.vNum 0] =
      UseSelect.resolveValues optsZero [] :=
  ⟨by decide, by decide,
    (C10_falsy_resolution optsZero (JSVal.vNum 0) [] (JSVal.vNum 0)
      (by decide) (by decide)).1⟩

/-! ## Helper lemmas for the round-trip and candidate-invariant claims -/

lemma UseSet.add_values (items : List JSVal) (i : JSVal) (s : SetState) :
    (UseSet.add items i s).values =
      if i ∈ items ∧ i ∉ s.values then s.values ++ [i] else s.values := by
  unfold UseSet.add; split_ifs <;> simp_all

lemma UseSet.mem_add (items : List JSVal) (i : JSVal) (s : SetState)
    (hs : ∀ x ∈ s.values, x ∈ items) :
    ∀ x ∈ (UseSet.add items i s).values, x ∈ items := by
  intro x hx
  rw [UseSet.add_values] at hx
  split_ifs at hx with h
  · rcases List.mem_append.1 hx with h2 | h2
    · exact hs x h2
    · simp only [List.mem_singleton] at h2
      subst h2; exact h.1
  · exact hs x hx

lemma UseSet.remove_values (i : JSVal) (s : SetState) :
    (UseSet.remove i s).values =
      if i ∈ s.values then s.values.erase i else s.values := by
  unfold UseSet.remove; split_ifs <;> rfl

lemma UseSet.mem_remove (i : JSVal) (s : SetState) :
    ∀ x ∈ (UseSet.remove i s).values, x ∈ s.values := by
  intro x hx
  rw [UseSet.remove_values] at hx
  split_ifs at hx with h
  · exact (List.erase_sublist i s.values).subset hx
  · exact hx

lemma UseSet.mem_toggle (items : List JSVal) (i : JSVal) (s : SetState)
    (hs : ∀ x ∈ s.values, x ∈ items) :
    ∀ x ∈ (UseSet.toggle items i s).values, x ∈ items := by
  unfold UseSet.toggle; split
  · intro x hx; exact hs x (UseSet.mem_remove i s x hx)
  · exact UseSet.mem_add items i s hs

lemma UseSelect.mem_select (opts : SelectOptions) (i : JSVal) (s : SetState)
    (hs : ∀ x ∈ s.values, x ∈ opts.items) :
    ∀ x ∈ (UseSelect.select opts i s).values, x ∈ opts.items := by
  unfold UseSelect.select; split
  · exact UseSet.mem_toggle opts.items i s hs
  · apply UseSet.mem_add
    intro x hx
    simp [UseSet.clear] at hx

lemma UseSelect.mem_foldl_select (opts : SelectOptions) (l : List JSVal) :
    ∀ s : SetState, (∀ x ∈ s.values, x ∈ opts.items) →
      ∀ x ∈ (l.foldl (fun st i => UseSelect.select opts i st) s).values,
        x ∈ opts.items := by
  induction l with
  | nil => intro s hs; simpa using hs
  | cons a t ih =>
      intro s hs
      simp only [List.foldl_cons]
      exact ih _ (UseSelect.mem_select opts a s hs)

lemma UseSelect.mem_setItems (opts : SelectOptions) (l : List JSVal) (s : SetState)
    (hs : ∀ x ∈ s.values, x ∈ opts.items) :
    ∀ x ∈ (UseSelect.setItems opts l s).values, x ∈ opts.items := by
  unfold UseSelect.setItems; split
  · exact hs
  · apply UseSelect.mem_foldl_select
    intro x hx
    simp [UseSet.clear] at hx

lemma UseSelect.mem_setStep (opts : SelectOptions) (op : UseSelect.Op) (s : SetState)
    (hs : ∀ x ∈ s.values, x ∈ opts.items) :
    ∀ x ∈ (UseSelect.setStep opts op s).values, x ∈ opts.items := by
  cases op with
  | add i => exact UseSet.mem_add opts.items i s hs
  | remove i => exact fun x hx => hs x (UseSet.mem_remove i s x hx)
  | toggle i => exact UseSet.mem_toggle opts.items i s hs
  | clear => intro x hx; simp [UseSelect.setStep, UseSet.clear] at hx
  | select i => exact UseSelect.mem_select opts i s hs
  | setItems l => exact UseSelect.mem_setItems opts l s hs
  | setValues mv =>
      exact UseSelect.mem_setItems opts
        (UseSelect.resolveValues opts (UseSelect.toArray mv)) s hs

lemma UseSelect.exec_sset (opts : SelectOptions) (op : UseSelect.Op)
    (st st2 : UseSelect.SelState) (h : UseSelect.exec opts op st = .ok st2) :
    st2.sset = UseSelect.setStep opts op st.sset := by
  unfold UseSelect.exec UseSelect.flush at h
  split at h
  · cases h; rfl
  · cases hr : UseSelect.recompute opts (UseSelect.setStep opts op st.sset).values with
    | error e => rw [hr] at h; simp [Bind.bind, Except.bind] at h
    | ok r =>
        rw [hr] at h
        simp only [Bind.bind, Except.bind] at h
        cases h; rfl

lemma UseSelect.init_sset (opts : SelectOptions) (st : UseSelect.SelState)
    (h : UseSelect.init opts = .ok st) : st.sset = SetState.init := by
  unfold UseSelect.init at h
  cases h1 : opts.items.mapM (UseSelect.getValue opts) with
  | error e => rw [h1] at h; simp [Bind.bind, Except.bind] at h
  | ok l =>
      rw [h1] at h
      cases h2 : UseSelect.splitArray opts.items opts.cols with
      | error e => rw [h2] at h; simp [Bind.bind, Except.bind] at h
      | ok r =>
          rw [h2] at h
          simp only [Bind.bind, Except.bind] at h
          cases h; rfl

lemma UseSelect.runFrom_inv (opts : SelectOptions) :
    ∀ (ops : List UseSelect.Op) (st st2 : UseSelect.SelState),
      UseSelect.runFrom opts st ops = .ok st2 →
      (∀ x ∈ st.sset.values, x ∈ opts.items) →
      ∀ x ∈ st2.sset.values, x ∈ opts.items := by
  intro ops
  induction ops with
  | nil =>
      intro st st2 h hs
      unfold UseSelect.runFrom at h
      cases h; exact hs
  | cons op rest ih =>
      intro st st2 h hs
      unfold UseSelect.runFrom at h
      cases he : UseSelect.exec opts op st with
      | error e => rw [he] at h; simp [Bind.bind, Except.bind] at h
      | ok st3 =>
          rw [he] at h
          simp only [Bind.bind, Except.bind] at h
          have h4 := UseSelect.exec_sset opts op st st3 he
          refine ih st3 st2 h ?_
          rw [h4]
          exact UseSelect.mem_setStep opts op st.sset hs

lemma UseSet.equals_self (s : SetState) : UseSet.equals s s.values = true := by
  simp [UseSet.equals, List.all_eq_true]

lemma UseSelect.resolve_forall (opts : SelectOptions) :
    ∀ (values vs : List JSVal),
      List.Forall₂ (fun i v => UseSelect.getValue opts i = Except.ok v ∧
        UseSelect.itemMap opts v = some i ∧ jsTruthy i = true) values vs →
      UseSelect.resolveValues opts vs = values := by
  intro values vs h
  induction h with
  | nil => rfl
  | cons hR _ ih =>
      obtain ⟨-, hmap, htr⟩ := hR
      unfold UseSelect.resolveValues at ih ⊢
      simp [List.filterMap_cons, hmap, htr, ih]

/-- C7 counterexample: in multiple mode with two distinct candidates that
project to the same value 1 (`itemA` first, `itemDupB` last), select
`itemA`; the derived selected values are `[1]`.  Feeding that very view
back through `setValues` resolves 1 through the last-write-wins Value
Index to `itemDupB`, fails the `equals` short-circuit, and therefore
replaces the Selection Set `{itemA}` by `{itemDupB}` and bumps the Change
Counter from 1 to 3 — not a no-op as the claim states. -/
theorem C7_counterexample :
    ((UseSelect.run optsDup [UseSelect.Op.select itemA]).bind (fun st =>
        (UseSelect.exec optsDup (UseSelect.Op.setValues st.selected) st).map
          (fun st2 =>
            (st.sset.values, st.sset.updated, st2.sset.values, st2.sset.updated)))).toOption =
      some ([itemA], 1, [itemDupB], 3) := by decide

/-- C7 amended: in multiple mode, `setValues(selectedValues)` is a no-op
(set unchanged, no counter bump) provided each selected item is the item
the Value Index resolves its own projected value back to (the last
candidate with that value) and is truthy — in particular whenever the
value projection is injective on the Candidate List and no selected item
is falsy.  With duplicate projected values or falsy selected items the
round-trip can rewrite the selection, as the counterexample shows. -/
theorem C7_amended (opts : SelectOptions) (s : SetState) (vs : List JSVal)
    (_hm : opts.multiple = true)
    (hres : List.Forall₂ (fun i v => UseSelect.getValue opts i = Except.ok v ∧
        UseSelect.itemMap opts v = some i ∧ jsTruthy i = true) s.values vs) :
    UseSelect.setValues opts (ModelValue.arr vs) s = s := by
  have h1 : UseSelect.resolveValues opts vs = s.values :=
    UseSelect.resolve_forall opts s.values vs hres
  simp only [UseSelect.setValues, UseSelect.toArray, h1, UseSelect.setItems,
    UseSet.equals_self, if_true]

/-- C7 witness: the multiple-mode controller over `[itemA, itemB]` (values
1 and 2, injective) with `itemA` selected: re-applying the derived value
list `[1]` leaves the tracker state untouched. -/
theorem C7_witness :
    optsMultiAB.multiple = true ∧
    UseSelect.setValues optsMultiAB (ModelValue.arr [JSVal.vNum 1]) sSelA = sSelA :=
  ⟨rfl, C7_amended optsMultiAB sSelA [JSVal.vNum 1] rfl
    (by refine List.Forall₂.cons ⟨?_, ?_, ?_⟩ List.Forall₂.nil
        · rfl
        · decide
        · decide)⟩

/-- C9: after any finite sequence of public operations (`add`, `remove`,
`toggle`, `clear`, `select`, `setItems`, `setValues`) on a freshly
constructed controller, every member of the Selection Set is a member of
the Candidate List: the only insertion point is `useSet.add`, which is
guarded by `items.indexOf(item) == -1`. -/
theorem C9_selection_subset_candidates (opts : SelectOptions)
    (ops : List UseSelect.Op) (st : UseSelect.SelState)
    (h : UseSelect.run opts ops = Except.ok st) :
    ∀ x ∈ st.sset.values, x ∈ opts.items := by
  unfold UseSelect.run at h
  cases hi : UseSelect.init opts with
  | error e => rw [hi] at h; simp [Bind.bind, Except.bind] at h
  | ok st0 =>
      rw [hi] at h
      simp only [Bind.bind, Except.bind] at h
      have h0 : st0.sset = SetState.init := UseSelect.init_sset opts st0 hi
      refine UseSelect.runFrom_inv opts ops st0 st h ?_
      rw [h0]
      intro x hx
      simp [SetState.init] at hx

/-- C9 witness: one `select(itemA)` call on the multiple-mode controller
lands in the concrete state `stSelA`, whose selection is contained in the
candidate list. -/
theorem C9_witness : itemA ∈ optsMultiAB.items :=
  C9_selection_subset_candidates optsMultiAB [UseSelect.Op.select itemA] stSelA
    (by rfl) itemA (by decide)
